import Mathlib

/-!
Verification of the longhorn disaster-recovery toolkit
(`restore_tool.py` and `update_volume_mapping.py`) against its
natural-language specification.

The Python sources are shallowly embedded: pure computations become Lean
functions, the S3 catalog and the Kubernetes API become explicit models
passed as arguments, file-system state becomes an explicit record, and
Python exceptions become explicit result constructors.  Exception
propagation is modelled faithfully: an exception type listed in an
`except` clause of the source is handled where the source handles it,
any other exception type escapes as a `raised`/`error` outcome.
-/

/-- Python exception classes that can escape the modelled code paths
uncaught (they appear in no `except` clause on the path in question). -/
inductive PyErr where
  | keyError
  | indexError
  | valueError
  deriving DecidableEq, Repr

/-- BackupRecord, the dict built in `get_backups_for_volume`
(`restore_tool.py` lines 56-60): fields `name`, `volume_name`,
`created_at` taken from the parsed `backup.cfg`. -/
structure BackupRecord where
  name : String
  volume_name : String
  created_at : String
  deriving DecidableEq, Repr

/-- The parsed content of a `backup.cfg` object: a JSON object in which
each of the required keys `Name`, `VolumeName`, `Created` may or may not
be present (`none` models the key being absent, so that the subscript
`cfg_data[...]` raises `KeyError`). -/
structure CfgData where
  cfgName : Option String
  cfgVolumeName : Option String
  cfgCreated : Option String
  deriving DecidableEq, Repr

/-- The possible outcomes of fetching and JSON-decoding one `backup.cfg`
object (`restore_tool.py` lines 54-55): an S3 `ClientError` with an error
code, a `json.JSONDecodeError`, or a successfully decoded JSON object. -/
inductive CfgFetch where
  | clientError (code : String)
  | badJson
  | parsed (cfg : CfgData)
  deriving DecidableEq, Repr

/-- Model of the S3 API surface used by `get_backups_for_volume`:
`listObjects bucket pfx` is the `list_objects_v2` call (returning the
`CommonPrefixes` strings, or a `ClientError` code), and `getObject
bucket key` is the `get_object` plus body-read-plus-JSON-decode step. -/
structure S3Model where
  listObjects : String → String → Except String (List String)
  getObject : String → String → CfgFetch

/-- LONGHORN_BASE_PATH constant (`restore_tool.py` line 19). -/
def LONGHORN_BASE_PATH : String := "longhorn/backupstore"

/-- Python slicing `s[:n]` of a string (computed on the character
list so that concrete instances evaluate by kernel reduction). -/
def strTake (s : String) (n : Nat) : String := ⟨s.data.take n⟩

/-- Python slicing `s[n:]` of a string. -/
def strDrop (s : String) (n : Nat) : String := ⟨s.data.drop n⟩

/-- The catalog key path built from the volume name (`restore_tool.py`
line 47, the f-string assigned to the local variable there): two
hash-bucket segments from the slices `[:2]` and `[2:4]` of the name. -/
def catalogPath (volume_name : String) : String :=
  LONGHORN_BASE_PATH ++ "/volumes/" ++ strTake volume_name 2 ++ "/"
    ++ strTake (strDrop volume_name 2) 2 ++ "/" ++ volume_name ++ "/backups/"

/-- Python's `str.split('/')` over the character list: splitting on
every slash, keeping empty pieces, with `[""]` for the empty string. -/
def splitSlash : List Char → List String
  | [] => [""]
  | c :: cs =>
    let r := splitSlash cs
    if c = '/' then "" :: r
    else
      match r with
      | [] => [String.mk [c]]
      | h :: t => String.mk (c :: h.data) :: t

/-- Extraction of the backup name from one common-prefix string:
`o.get('Prefix').split('/')[-2]` (`restore_tool.py` line 52).  A Python
negative index on a too-short list raises `IndexError`. -/
def backupNameOf (p : String) : Except PyErr String :=
  let parts := splitSlash p.data
  match parts.dropLast.getLast? with
  | some s => .ok s
  | none => .error .indexError

/-- Outcome of the `for` loop over `CommonPrefixes` inside the `try`
block of `get_backups_for_volume`, before sorting: either the collected
records in catalog enumeration order, or one of the early exits the
surrounding `except` clauses produce (`return []` on a `NoSuchKey`
`ClientError`, `return None` on any other `ClientError` or on a JSON
decode error), or an uncaught exception. -/
inductive CollectRes where
  | recs (l : List BackupRecord)
  | retEmpty
  | retNone
  | raised (e : PyErr)
  deriving DecidableEq, Repr

/-- The body of the loop of `get_backups_for_volume` (lines 51-60): for
each common prefix, extract the backup name, fetch and decode its
`backup.cfg`, and read the three required fields.  A missing field is a
`KeyError`, caught by no `except` clause of the function. -/
def collectBackups (s3 : S3Model) (bucket pfx : String) :
    List String → CollectRes
  | [] => .recs []
  | o :: os =>
    match backupNameOf o with
    | .error e => .raised e
    | .ok backup_name =>
      match s3.getObject bucket (pfx ++ backup_name ++ "/backup.cfg") with
      | .clientError code =>
          if code = "NoSuchKey" then .retEmpty else .retNone
      | .badJson => .retNone
      | .parsed cfg =>
        match cfg.cfgName, cfg.cfgVolumeName, cfg.cfgCreated with
        | some n, some vn, some cr =>
          match collectBackups s3 bucket pfx os with
          | .recs l => .recs (⟨n, vn, cr⟩ :: l)
          | r => r
        | _, _, _ => .raised .keyError

/-- Python's `<` on strings, compared character list against character
list by code point (computed on `Nat` so that concrete instances
evaluate by kernel reduction): the first differing position decides,
and a proper suffix relation makes the shorter string smaller. -/
def charListLt : List Char → List Char → Bool
  | [], [] => false
  | [], _ :: _ => true
  | _ :: _, [] => false
  | a :: as, b :: bs =>
    if a.toNat < b.toNat then true
    else if b.toNat < a.toNat then false
    else charListLt as bs

/-- Python's `s < t` on strings. -/
def strLtB (s t : String) : Bool := charListLt s.data t.data

/-- Stable descending insertion step matching Python's stable
`sorted(..., key=lambda b: b.created_at, reverse=True)`: a record is
placed after every already-present record whose key is greater than or
equal to its own, so records with equal keys keep their original
relative order. -/
def insortDesc (x : BackupRecord) : List BackupRecord → List BackupRecord
  | [] => [x]
  | y :: ys =>
    if strLtB y.created_at x.created_at then x :: y :: ys
    else y :: insortDesc x ys

/-- The `sorted(backups, key=lambda b: b.created_at, reverse=True)` call
of `restore_tool.py` line 61, as a stable insertion sort. -/
def sortedByCreatedDesc (l : List BackupRecord) : List BackupRecord :=
  l.foldl (fun acc x => insortDesc x acc) []

/-- Result of `get_backups_for_volume`: a returned list, a returned
`None` (the function's error value), or an uncaught exception. -/
inductive BackupsResult where
  | ok (l : List BackupRecord)
  | errNone
  | raised (e : PyErr)
  deriving DecidableEq, Repr

/-- get_backups_for_volume (`restore_tool.py` lines 45-69). -/
def get_backups_for_volume (s3 : S3Model) (bucket volume_name : String) :
    BackupsResult :=
  let pfx := catalogPath volume_name
  match s3.listObjects bucket pfx with
  | .error code => if code = "NoSuchKey" then .ok [] else .errNone
  | .ok cps =>
    match collectBackups s3 bucket pfx cps with
    | .recs l => .ok (sortedByCreatedDesc l)
    | .retEmpty => .ok []
    | .retNone => .errNone
    | .raised e => .raised e

/-! Restore Transaction Manager (`restore_tool.py`, `main` and helpers). -/

/-- Number of days Python's `datetime` accepts for a month of a year. -/
def daysInMonth (y m : Nat) : Nat :=
  if m = 2 then
    (if (y % 4 = 0 ∧ y % 100 ≠ 0) ∨ y % 400 = 0 then 29 else 28)
  else if m = 4 ∨ m = 6 ∨ m = 9 ∨ m = 11 then 30
  else 31

/-- Two decimal digits as a number, if both characters are digits. -/
def twoDigit (a b : Char) : Option Nat :=
  if a.isDigit ∧ b.isDigit then
    some ((a.toNat - 48) * 10 + (b.toNat - 48))
  else none

/-- Modelled from the spec: success of the stdlib call
`datetime.strptime(created_at, s)` with format string
`%Y-%m-%dT%H:%M:%SZ` (`restore_tool.py` lines 150 and 157), for the
spec's exact timestamp format `YYYY-MM-DDTHH:MM:SSZ` in canonical
zero-padded form (Python additionally tolerates some unpadded digit
fields, which is not modelled).  A mismatch raises `ValueError`, which
no `except` clause on those lines catches. -/
def validCreatedAt (s : String) : Bool :=
  match s.toList with
  | [y1, y2, y3, y4, '-', mo1, mo2, '-', d1, d2, 'T',
     h1, h2, ':', mi1, mi2, ':', s1, s2, 'Z'] =>
    (y1.isDigit && y2.isDigit && y3.isDigit && y4.isDigit) &&
    (match twoDigit mo1 mo2, twoDigit d1 d2, twoDigit h1 h2,
        twoDigit mi1 mi2, twoDigit s1 s2 with
     | some mo, some dy, some hh, some mi, some ss =>
       let yr := (y1.toNat - 48) * 1000 + (y2.toNat - 48) * 100
         + (y3.toNat - 48) * 10 + (y4.toNat - 48)
       decide (1 ≤ yr) && decide (1 ≤ mo) && decide (mo ≤ 12)
         && decide (1 ≤ dy) && decide (dy ≤ daysInMonth yr mo)
         && decide (hh ≤ 23) && decide (mi ≤ 59) && decide (ss ≤ 59)
     | _, _, _, _, _ => false)
  | _ => false

/-- State of the manifest file and its sibling undo-log copy
(`manifest_path` and `manifest_backup_path = manifest_path + ".bak"`):
the byte content of the manifest, and the byte content of the `.bak`
file when it exists.  File copy and move are modelled as atomic. -/
structure FS where
  manifest : String
  bak : Option String
  deriving DecidableEq, Repr

/-- Outcome of the load-annotate-rewrite step (`restore_tool.py` lines
179-185): success rewrites the manifest with the dumped annotated
document (its bytes are a datum of the run, carried here); a failure
while opening/parsing leaves the file untouched (`loadErr`); a failure
while rewriting can leave arbitrary partial bytes (`writeErr`).  Both
failures are `IOError`/`OSError`/`yaml.YAMLError`, all caught by the
`except` clause of line 195. -/
inductive MutRes where
  | ok (newContent : String)
  | loadErr
  | writeErr (leftover : String)
  deriving DecidableEq, Repr

/-- Outcomes of the four effectful transaction stages of one entry:
`shutil.copy` to the undo log (line 178), the manifest mutation (lines
179-185), `utils.create_from_yaml` (line 188, failing with
`ApiException`), and `wait_for_pvc_bound` (line 190; `false` means the
timeout elapsed, raising the `IOError` of line 191). -/
structure TxInput where
  copyOk : Bool
  mutate : MutRes
  applyOk : Bool
  bound : Bool
  deriving DecidableEq, Repr

/-- The rollback step of the `except` clause (`restore_tool.py` lines
198-199): if the undo-log copy exists, move it over the manifest. -/
def rollback_from_bak (fs : FS) : FS :=
  match fs.bak with
  | some c => ⟨c, none⟩
  | none => fs

/-- The `finally` block (`restore_tool.py` lines 201-208): if the
undo-log copy still exists, ask the operator; on answer `y` move it
over the manifest, otherwise keep both files as they are. -/
def finally_cleanup (cleanup_choice : String) (fs : FS) : FS :=
  match fs.bak with
  | some c => if cleanup_choice = "y" then ⟨c, none⟩ else fs
  | none => fs

/-- The per-entry transaction (`restore_tool.py` lines 177-208):
copy-to-undo-log, mutate, apply, wait-for-bound, with the `except`
rollback on any caught failure and the `finally` cleanup prompt.
Returns the final file state, whether the cluster apply was submitted,
and whether the entry succeeded. -/
def transact (tx : TxInput) (cleanup_choice : String) (fs : FS) :
    FS × Bool × Bool :=
  if tx.copyOk = false then
    (finally_cleanup cleanup_choice (rollback_from_bak fs), false, false)
  else
    let fs1 : FS := ⟨fs.manifest, some fs.manifest⟩
    match tx.mutate with
    | .loadErr =>
        (finally_cleanup cleanup_choice (rollback_from_bak fs1), false, false)
    | .writeErr leftover =>
        (finally_cleanup cleanup_choice (rollback_from_bak ⟨leftover, fs1.bak⟩),
          false, false)
    | .ok newC =>
      let fs2 : FS := ⟨newC, fs1.bak⟩
      if tx.applyOk = false then
        (finally_cleanup cleanup_choice (rollback_from_bak fs2), false, false)
      else if tx.bound = false then
        (finally_cleanup cleanup_choice (rollback_from_bak fs2), true, false)
      else
        (finally_cleanup cleanup_choice fs2, true, true)

/-- A transaction succeeds when every stage succeeds and the claim
reaches the bound state within the timeout. -/
def txSuccess (tx : TxInput) : Bool :=
  tx.copyOk
    && (match tx.mutate with | .ok _ => true | _ => false)
    && tx.applyOk && tx.bound

/-- The operator's line answers for one entry: the first prompt
(lowered), the numeric choice at the `list` prompt (`none` models a
non-numeric string, whose `int()` raises the caught `ValueError`), and
the answer to the `finally` cleanup prompt (lowered). -/
structure OperatorInput where
  user_choice : String
  list_selection : Option Int
  cleanup_choice : String
  deriving DecidableEq, Repr

/-- The selection logic of `restore_tool.py` lines 152-163: `y` picks
the latest backup; `list` reads a number and picks it when
`0 <= selection < len(backups)`; anything else, a non-numeric answer or
an out-of-range number leaves `chosen_backup` as `None`. -/
def chosen_backup (user : OperatorInput) (latest : BackupRecord)
    (backups : List BackupRecord) : Option BackupRecord :=
  if user.user_choice = "y" then some latest
  else if user.user_choice = "list" then
    match user.list_selection with
    | none => none
    | some k =>
      if 0 ≤ k - 1 ∧ k - 1 < (backups.length : Int) then
        backups[(k - 1).toNat]?
      else none
  else none

/-- The restoration-source reference string of `restore_tool.py`
line 174. -/
def backup_url (bucket : String) (b : BackupRecord) : String :=
  "s3://" ++ bucket ++ "@/longhorn/?backup=" ++ b.name
    ++ "&volume=" ++ b.volume_name

/-- One entry of the mapping file, as written by the synchronizer and
read by the restore tool: namespace, PVC name, volume name. -/
structure MappingEntry where
  namespace_ : String
  pvcName : String
  volumeName : String
  deriving DecidableEq, Repr

/-- The non-catalog inputs consumed while processing one mapping entry:
the operator's answers, the result of `find_pvc_manifest` (an external
recursive file scan, modelled by its returned path), the transaction
stage outcomes, and the initial state of the entry's manifest file. -/
structure EntryInput where
  user : OperatorInput
  manifest_path : Option String
  tx : TxInput
  fs : FS
  deriving DecidableEq, Repr

/-- How processing one mapping entry ends when no exception escapes. -/
inductive EntryOutcome where
  | fetchError
  | noBackups
  | declined
  | noManifest
  | txFailed
  | restored
  deriving DecidableEq, Repr

/-- The body of the `for pvc in pvc_mappings` loop of `main`
(`restore_tool.py` lines 137-208) for one entry: fetch the backups
(an uncaught exception from there escapes), skip on error or on an
empty list, format the latest timestamp, run the selection dialogue,
locate the manifest, and run the transaction.  Returns the outcome,
the final manifest file state, and whether a cluster apply was
submitted. -/
def process_entry (s3 : S3Model) (bucket : String) (entry : MappingEntry)
    (inp : EntryInput) : Except PyErr (EntryOutcome × FS × Bool) :=
  match get_backups_for_volume s3 bucket entry.volumeName with
  | .raised e => .error e
  | .errNone => .ok (.fetchError, inp.fs, false)
  | .ok [] => .ok (.noBackups, inp.fs, false)
  | .ok (latest :: rest) =>
    if validCreatedAt latest.created_at = false then .error .valueError
    else if inp.user.user_choice = "list"
        ∧ ((latest :: rest).all fun b => validCreatedAt b.created_at) = false
      then .error .valueError
    else
      match chosen_backup inp.user latest (latest :: rest) with
      | none => .ok (.declined, inp.fs, false)
      | some _ =>
        match inp.manifest_path with
        | none => .ok (.noManifest, inp.fs, false)
        | some _ =>
          let r := transact inp.tx inp.user.cleanup_choice inp.fs
          .ok (if r.2.2 then .restored else .txFailed, r.1, r.2.1)

/-- The whole `for` loop of `main` over the mapping entries: process
each entry in order; an uncaught exception from an entry aborts the
run, ending the loop.  Returns the outcomes of the entries processed
to completion and the aborting exception, if any. -/
def run_main (s3 : S3Model) (bucket : String) :
    List (MappingEntry × EntryInput) → List EntryOutcome × Option PyErr
  | [] => ([], none)
  | (entry, inp) :: rest =>
    match process_entry s3 bucket entry inp with
    | .error e => ([], some e)
    | .ok (o, _, _) =>
      let r := run_main s3 bucket rest
      (o :: r.1, r.2)

/-! Mapping Synchronizer (`update_volume_mapping.py`). -/

/-- The metadata of a listed PersistentVolumeClaim as read by the
synchronizer: `metadata.namespace` and `metadata.name`. -/
structure PVCMeta where
  namespace_ : String
  name : String
  deriving DecidableEq, Repr

/-- The spec of a listed PersistentVolumeClaim: `spec.volume_name`,
which is `None` for an unbound claim and may in principle be an empty
string; Python's truthiness test `if pvc.spec.volume_name` treats both
as absent. -/
structure PVCSpec where
  volume_name : Option String
  deriving DecidableEq, Repr

/-- One item of `list_persistent_volume_claim_for_all_namespaces`. -/
structure PVCItem where
  metadata : PVCMeta
  spec : PVCSpec
  deriving DecidableEq, Repr

/-- Truthiness of `pvc.spec.volume_name` (`update_volume_mapping.py`
line 36): `None` and the empty string are falsy. -/
def boundVolume : Option String → Bool
  | none => false
  | some v => v ≠ ""

/-- The dict appended for one bound claim (`update_volume_mapping.py`
lines 37-41). -/
def entryOfPVC (pvc : PVCItem) : MappingEntry :=
  ⟨pvc.metadata.namespace_, pvc.metadata.name,
    pvc.spec.volume_name.getD ""⟩

/-- get_pvc_mapping (`update_volume_mapping.py` lines 27-45): on a
successful API list, one entry per claim whose `spec.volume_name` is
truthy; on an `ApiException`, log and return `None`. -/
def get_pvc_mapping (apiRes : Except Unit (List PVCItem)) :
    Option (List MappingEntry) :=
  match apiRes with
  | .error _ => none
  | .ok items =>
    some (items.foldr
      (fun pvc acc =>
        if boundVolume pvc.spec.volume_name then entryOfPVC pvc :: acc
        else acc)
      [])

/-- On-disk state of the mapping file: a complete JSON snapshot, or the
leftover of a write that failed part-way (`json.dump` into a file
already opened with mode `w`). -/
inductive MapFile where
  | content (l : List MappingEntry)
  | corruptWrite
  deriving DecidableEq, Repr

/-- update_mapping_file (`update_volume_mapping.py` lines 47-59): fetch
the mapping; when it is not `None`, attempt to overwrite the file
(`writeOk = false` models the caught `IOError` of line 58).  Returns
the new file state and whether a write to the file was attempted. -/
def update_mapping_file (apiRes : Except Unit (List PVCItem))
    (writeOk : Bool) (file : MapFile) : MapFile × Bool :=
  match get_pvc_mapping apiRes with
  | none => (file, false)
  | some m => if writeOk then (.content m, true) else (.corruptWrite, true)

/-- One event delivered by the change-notification stream, bundled with
the outcome of the API list call and of the file write that the event's
`update_mapping_file` call performs (`update_volume_mapping.py` lines
69-78). -/
structure WatchEvent where
  apiRes : Except Unit (List PVCItem)
  writeOk : Bool

/-- How one `watch_for_changes` invocation's stream ends
(`update_volume_mapping.py` lines 68-88): the bounded stream times out
and the `for` loop ends normally; an `ApiException` with status 410
("resource version too old"); any other `ApiException`; or any other
exception. -/
inductive SessEnd where
  | timeout
  | api410
  | apiOther
  | otherExn
  deriving DecidableEq, Repr

/-- One invocation of `watch_for_changes`: the events the stream
delivers before it ends, and the way it ends. -/
structure Session where
  events : List WatchEvent
  ending : SessEnd

/-- Externally observable actions of the synchronizer, in order: an
attempted write of the mapping file, the warning log of the 410 branch
(line 82), and the 10-second backoff of the other error branches
(lines 84-88). -/
inductive SyncAction where
  | wroteStore
  | warn410
  | backoff
  deriving DecidableEq, Repr

/-- watch_for_changes (`update_volume_mapping.py` lines 61-88): for
each event, settle then call `update_mapping_file`; when the stream
ends, the 410 case only logs a warning, the other error cases log and
back off, and a timeout just returns.  Every exception class is caught,
so the function always returns to its caller. -/
def watch_for_changes (s : Session) (file : MapFile) :
    MapFile × List SyncAction :=
  let stepped := s.events.foldl
    (fun (acc : MapFile × List SyncAction) ev =>
      let r := update_mapping_file ev.apiRes ev.writeOk acc.1
      (r.1, acc.2 ++ if r.2 then [.wroteStore] else []))
    (file, [])
  match s.ending with
  | .timeout => stepped
  | .api410 => (stepped.1, stepped.2 ++ [.warn410])
  | .apiOther => (stepped.1, stepped.2 ++ [.backoff])
  | .otherExn => (stepped.1, stepped.2 ++ [.backoff])

/-- The `while True` loop of `__main__` (`update_volume_mapping.py`
lines 111-116) over a finite schedule of watch sessions: since
`watch_for_changes` catches every exception class, each session is
followed by the next and the loop never exits on a stream error. -/
def run_watch_loop : List Session → MapFile → MapFile × List SyncAction
  | [], file => (file, [])
  | s :: rest, file =>
    let r := watch_for_changes s file
    let r' := run_watch_loop rest r.1
    (r'.1, r.2 ++ r'.2)

/-! Concrete catalog, operator and cluster instances used by the
witnesses and counterexamples below. -/

/-- A catalog holding three backups for volume `abcd-ef`, enumerated in
the order `bk-a` (2024-01-02), `bk-b` (2024-01-05), `bk-c`
(2024-01-02); `bk-a` and `bk-c` share a creation time. -/
def s3good : S3Model where
  listObjects := fun _ k =>
    if k = catalogPath "abcd-ef" then
      .ok [k ++ "bk-a/", k ++ "bk-b/", k ++ "bk-c/"]
    else .ok []
  getObject := fun _ key =>
    if key = catalogPath "abcd-ef" ++ "bk-a/backup.cfg" then
      .parsed ⟨some "bk-a", some "abcd-ef", some "2024-01-02T00:00:00Z"⟩
    else if key = catalogPath "abcd-ef" ++ "bk-b/backup.cfg" then
      .parsed ⟨some "bk-b", some "abcd-ef", some "2024-01-05T00:00:00Z"⟩
    else if key = catalogPath "abcd-ef" ++ "bk-c/backup.cfg" then
      .parsed ⟨some "bk-c", some "abcd-ef", some "2024-01-02T00:00:00Z"⟩
    else .clientError "NoSuchKey"

/-- The records of `s3good` as `get_backups_for_volume` builds them. -/
def recA : BackupRecord := ⟨"bk-a", "abcd-ef", "2024-01-02T00:00:00Z"⟩

def recB : BackupRecord := ⟨"bk-b", "abcd-ef", "2024-01-05T00:00:00Z"⟩

def recC : BackupRecord := ⟨"bk-c", "abcd-ef", "2024-01-02T00:00:00Z"⟩

/-- A catalog in which volume `abcd-ef` has one backup whose
`backup.cfg` is valid JSON but lacks the required `Created` field. -/
def s3bad : S3Model where
  listObjects := fun _ k =>
    if k = catalogPath "abcd-ef" then .ok [k ++ "bk-x/"] else .ok []
  getObject := fun _ key =>
    if key = catalogPath "abcd-ef" ++ "bk-x/backup.cfg" then
      .parsed ⟨some "bk-x", some "abcd-ef", none⟩
    else .clientError "NoSuchKey"

/-- A catalog in which volume `abcd-ef` has one backup whose
`backup.cfg` is not valid JSON. -/
def s3badJson : S3Model where
  listObjects := fun _ k =>
    if k = catalogPath "abcd-ef" then .ok [k ++ "bk-x/"] else .ok []
  getObject := fun _ _ => .badJson

/-- A catalog with no backups stored for any volume: listing any key
path yields no common prefixes. -/
def s3empty : S3Model where
  listObjects := fun _ _ => .ok []
  getObject := fun _ _ => .clientError "NoSuchKey"

/-- A mapping entry whose volume is `abcd-ef`. -/
def entryDemo : MappingEntry := ⟨"default", "pvc-a", "abcd-ef"⟩

/-- A second mapping entry, for a volume with no backups. -/
def entrySecond : MappingEntry := ⟨"default", "pvc-b", "wxyz-12"⟩

/-- Per-entry inputs in which the operator declines the default backup
at the first prompt; all transaction stages would succeed if reached. -/
def inpDecline : EntryInput :=
  ⟨⟨"n", none, "n"⟩, some "apps/default/pvc-a.yaml",
    ⟨true, .ok "annotated-bytes", true, true⟩, ⟨"orig-bytes", none⟩⟩

/-- Two listed claims: `claimA` bound to `vol-a`, `claimB` unbound. -/
def demoItems : List PVCItem :=
  [⟨⟨"default", "claimA"⟩, ⟨some "vol-a"⟩⟩,
   ⟨⟨"default", "claimB"⟩, ⟨none⟩⟩]

/-- A watch session that delivers no events and ends with the
"resource version too old" (410) condition. -/
def sess410 : Session := ⟨[], .api410⟩

/-- A watch session that delivers no events and times out normally. -/
def sessTimeout : Session := ⟨[], .timeout⟩

/-- A mapping store holding one entry from an earlier pass. -/
def demoStore : MapFile := .content [⟨"default", "claimA", "vol-a"⟩]
/-! Order lemmas for the string comparison, then ordering and
stability lemmas for the sort. -/

theorem charListLt_irrefl (a : List Char) : charListLt a a = false := by
  induction a with
  | nil => rfl
  | cons x xs ih => simp [charListLt, Nat.lt_irrefl, ih]

theorem charListLt_asymm (a : List Char) : ∀ b : List Char,
    charListLt a b = true → charListLt b a = false := by
  induction a with
  | nil =>
    intro b h
    cases b with
    | nil => simp [charListLt] at h
    | cons y ys => simp [charListLt]
  | cons x xs ih =>
    intro b h
    cases b with
    | nil => simp [charListLt] at h
    | cons y ys =>
      simp only [charListLt] at h ⊢
      rcases Nat.lt_trichotomy x.toNat y.toNat with hxy | hxy | hxy
      · simp [Nat.lt_asymm hxy, hxy]
      · simp only [hxy] at h ⊢
        simp only [Nat.lt_irrefl, if_false] at h ⊢
        exact ih ys h
      · simp [Nat.lt_asymm hxy, hxy] at h

theorem charListLt_trans (a : List Char) : ∀ b c : List Char,
    charListLt a b = true → charListLt b c = true → charListLt a c = true := by
  induction a with
  | nil =>
    intro b c h1 h2
    cases b with
    | nil => simp [charListLt] at h1
    | cons y ys =>
      cases c with
      | nil => simp [charListLt] at h2
      | cons z zs => simp [charListLt]
  | cons x xs ih =>
    intro b c h1 h2
    cases b with
    | nil => simp [charListLt] at h1
    | cons y ys =>
      cases c with
      | nil => simp [charListLt] at h2
      | cons z zs =>
        simp only [charListLt] at h1 h2 ⊢
        rcases Nat.lt_trichotomy x.toNat y.toNat with hxy | hxy | hxy
        · rcases Nat.lt_trichotomy y.toNat z.toNat with hyz | hyz | hyz
          · simp [Nat.lt_trans hxy hyz]
          · simp [hyz ▸ hxy]
          · simp [Nat.lt_asymm hyz, hyz] at h2
        · rcases Nat.lt_trichotomy y.toNat z.toNat with hyz | hyz | hyz
          · simp [hxy.symm ▸ hyz]
          · simp only [hxy] at h1 ⊢
            simp only [hyz] at h2 ⊢
            simp only [Nat.lt_irrefl, if_false] at h1 h2 ⊢
            exact ih ys zs h1 h2
          · simp [Nat.lt_asymm hyz, hyz] at h2
        · simp [Nat.lt_asymm hxy, hxy] at h1

theorem strLtB_asymm {s t : String} (h : strLtB s t = true) :
    strLtB t s = false :=
  charListLt_asymm s.data t.data h

theorem strLtB_trans {s t u : String} (h1 : strLtB s t = true)
    (h2 : strLtB t u = true) : strLtB s u = true :=
  charListLt_trans s.data t.data u.data h1 h2

theorem strLtB_ne {s t : String} (h : strLtB s t = true) : s ≠ t := by
  intro he
  subst he
  have h0 := charListLt_irrefl s.data
  simp only [strLtB, h0] at h
  exact Bool.false_ne_true h

theorem mem_insortDesc (x z : BackupRecord) (l : List BackupRecord) :
    z ∈ insortDesc x l ↔ z = x ∨ z ∈ l := by
  induction l with
  | nil => simp [insortDesc]
  | cons y ys ih =>
    cases hc : strLtB y.created_at x.created_at with
    | true => simp [insortDesc, hc]
    | false =>
      simp [insortDesc, hc, ih]
      tauto

theorem insortDesc_pairwise (x : BackupRecord) (l : List BackupRecord)
    (h : l.Pairwise fun a b => strLtB a.created_at b.created_at = false) :
    (insortDesc x l).Pairwise
      (fun a b => strLtB a.created_at b.created_at = false) := by
  induction l with
  | nil => simp [insortDesc]
  | cons y ys ih =>
    rcases List.pairwise_cons.mp h with ⟨hy, hys⟩
    cases hc : strLtB y.created_at x.created_at with
    | true =>
      have hstep : insortDesc x (y :: ys) = x :: y :: ys := by
        simp [insortDesc, hc]
      rw [hstep]
      refine List.pairwise_cons.mpr ⟨?_, List.pairwise_cons.mpr ⟨hy, hys⟩⟩
      intro z hz
      rcases List.mem_cons.mp hz with rfl | hz
      · exact strLtB_asymm hc
      · cases hxz : strLtB x.created_at z.created_at with
        | false => rfl
        | true =>
          have hyz := strLtB_trans hc hxz
          simp [hy z hz] at hyz
    | false =>
      have hstep : insortDesc x (y :: ys) = y :: insortDesc x ys := by
        simp [insortDesc, hc]
      rw [hstep]
      refine List.pairwise_cons.mpr ⟨?_, ih hys⟩
      intro z hz
      rcases (mem_insortDesc x z ys).mp hz with rfl | hz
      · exact hc
      · exact hy z hz

theorem insortDesc_filter_ne (x : BackupRecord) (t : String)
    (hx : x.created_at ≠ t) (l : List BackupRecord) :
    (insortDesc x l).filter (fun b => b.created_at == t)
      = l.filter (fun b => b.created_at == t) := by
  induction l with
  | nil => simp [insortDesc, hx]
  | cons y ys ih =>
    cases hc : strLtB y.created_at x.created_at with
    | true =>
      have hstep : insortDesc x (y :: ys) = x :: y :: ys := by
        simp [insortDesc, hc]
      rw [hstep, List.filter_cons]
      simp [hx]
    | false =>
      have hstep : insortDesc x (y :: ys) = y :: insortDesc x ys := by
        simp [insortDesc, hc]
      rw [hstep, List.filter_cons, List.filter_cons, ih]

theorem insortDesc_filter_eq (x : BackupRecord) (l : List BackupRecord)
    (h : l.Pairwise fun a b => strLtB a.created_at b.created_at = false) :
    (insortDesc x l).filter (fun b => b.created_at == x.created_at)
      = l.filter (fun b => b.created_at == x.created_at) ++ [x] := by
  induction l with
  | nil => simp [insortDesc]
  | cons y ys ih =>
    rcases List.pairwise_cons.mp h with ⟨hy, hys⟩
    cases hc : strLtB y.created_at x.created_at with
    | true =>
      have hstep : insortDesc x (y :: ys) = x :: y :: ys := by
        simp [insortDesc, hc]
      have hnil : (y :: ys).filter (fun b => b.created_at == x.created_at)
          = [] := by
        refine List.filter_eq_nil_iff.mpr ?_
        intro b hb
        rcases List.mem_cons.mp hb with rfl | hb
        · simp [strLtB_ne hc]
        · have hbx : b.created_at ≠ x.created_at := by
            intro he
            rw [← he] at hc
            simp [hy b hb] at hc
          simp [hbx]
      rw [hstep, List.filter_cons, hnil]
      simp
    | false =>
      have hstep : insortDesc x (y :: ys) = y :: insortDesc x ys := by
        simp [insortDesc, hc]
      rw [hstep, List.filter_cons, List.filter_cons, ih hys]
      by_cases hyx : y.created_at = x.created_at
      · simp [hyx]
      · simp [hyx]

theorem sortedByCreatedDesc_go_pairwise (l acc : List BackupRecord)
    (h : acc.Pairwise fun a b => strLtB a.created_at b.created_at = false) :
    (l.foldl (fun acc x => insortDesc x acc) acc).Pairwise
      (fun a b => strLtB a.created_at b.created_at = false) := by
  induction l generalizing acc with
  | nil => simpa using h
  | cons x xs ih => exact ih _ (insortDesc_pairwise x acc h)

theorem sortedByCreatedDesc_pairwise (l : List BackupRecord) :
    (sortedByCreatedDesc l).Pairwise
      (fun a b => strLtB a.created_at b.created_at = false) := by
  exact sortedByCreatedDesc_go_pairwise l [] (by simp)

theorem sortedByCreatedDesc_go_filter (t : String) (l acc : List BackupRecord)
    (h : acc.Pairwise fun a b => strLtB a.created_at b.created_at = false) :
    (l.foldl (fun acc x => insortDesc x acc) acc).filter
        (fun b => b.created_at == t)
      = acc.filter (fun b => b.created_at == t)
        ++ l.filter (fun b => b.created_at == t) := by
  induction l generalizing acc with
  | nil => simp
  | cons x xs ih =>
    have hacc' := insortDesc_pairwise x acc h
    rw [List.foldl_cons, ih (insortDesc x acc) hacc', List.filter_cons]
    by_cases hx : x.created_at = t
    · subst hx
      rw [insortDesc_filter_eq x acc h]
      simp
    · rw [insortDesc_filter_ne x t hx acc]
      simp [hx]

theorem sortedByCreatedDesc_filter (t : String) (l : List BackupRecord) :
    (sortedByCreatedDesc l).filter (fun b => b.created_at == t)
      = l.filter (fun b => b.created_at == t) := by
  have := sortedByCreatedDesc_go_filter t l [] (by simp)
  simpa [sortedByCreatedDesc] using this

/-! Helper lemmas about the synchronizer's mapping construction. -/

theorem get_pvc_mapping_ok (items : List PVCItem) :
    get_pvc_mapping (.ok items)
      = some ((items.filter fun pvc => boundVolume pvc.spec.volume_name).map
          entryOfPVC) := by
  simp only [get_pvc_mapping, Option.some.injEq]
  induction items with
  | nil => simp
  | cons p ps ih =>
    by_cases hb : boundVolume p.spec.volume_name
    · simp [List.filter_cons, hb, ih]
    · simp [List.filter_cons, hb, ih]

/-! The claims. -/

/-- C1: for every restore transaction that fails in any stage (undo-log
copy, manifest mutation, cluster apply, or bound-wait timeout), the
manifest file's content after rollback is byte-identical to its
pre-transaction content, and the undo-log copy is consumed (no `.bak`
file remains).  Stated for a pre-transaction state with no leftover
undo-log file, as the transaction protocol guarantees. -/
theorem c1_failed_transaction_restores_manifest (tx : TxInput)
    (cleanup_choice : String) (fs : FS)
    (hbak : fs.bak = none) (hfail : txSuccess tx = false) :
    (transact tx cleanup_choice fs).1.manifest = fs.manifest ∧
    (transact tx cleanup_choice fs).1.bak = none := by
  obtain ⟨m, bk⟩ := fs
  simp only at hbak
  subst hbak
  obtain ⟨cp, mu, ap, bd⟩ := tx
  cases cp <;> cases mu <;> cases ap <;> cases bd <;>
    simp_all [transact, txSuccess, rollback_from_bak, finally_cleanup]

/-- Witness for C1: a transaction whose bound-wait times out, on a
manifest with no leftover undo-log file, ends with the original bytes
restored and the undo-log copy gone. -/
theorem c1_witness :
    ((FS.mk "orig-bytes" none).bak = none ∧
      txSuccess ⟨true, .ok "annotated-bytes", true, false⟩ = false) ∧
    ((transact ⟨true, .ok "annotated-bytes", true, false⟩ "n"
        ⟨"orig-bytes", none⟩).1.manifest = "orig-bytes" ∧
      (transact ⟨true, .ok "annotated-bytes", true, false⟩ "n"
        ⟨"orig-bytes", none⟩).1.bak = none) :=
  ⟨⟨rfl, by decide⟩,
    c1_failed_transaction_restores_manifest
      ⟨true, .ok "annotated-bytes", true, false⟩ "n"
      ⟨"orig-bytes", none⟩ rfl (by decide)⟩

/-- C2, evaluation at the failing input: the claim says a per-entry
failure never aborts the overall run, but a catalog error of the
malformed-metadata kind does.  With two mapping entries, the first
entry's volume having one backup whose `backup.cfg` lacks the
`Created` field, the uncaught `KeyError` from `get_backups_for_volume`
aborts the run: no entry completes and the second entry is never
processed. -/
theorem c2_uncaught_catalog_keyerror_aborts_run :
    run_main s3bad "bkt" [(entryDemo, inpDecline), (entrySecond, inpDecline)]
      = ([], some .keyError) := by decide

/-- C3, counterexample: the claim says that on the "resource version
too old" (410) condition the Synchronizer performs a fresh full
enumeration and rewrites the Mapping Store before resuming.  In a run
whose first watch session ends with 410 and whose second times out
normally, the store is never rewritten and no write is ever attempted:
the 410 handler only logs a warning. -/
theorem c3_counterexample :
    run_watch_loop [sess410, sessTimeout] demoStore
        = (demoStore, [.warn410]) ∧
    SyncAction.wroteStore ∉ (run_watch_loop [sess410, sessTimeout] demoStore).2 := by
  constructor <;> decide

/-- C3, amended: when the stream reports the 410 condition, the
Synchronizer logs a warning and resumes watching without the process
exiting — the remaining sessions are processed exactly as they would
have been — but it does not itself re-enumerate or rewrite the Mapping
Store at that point; the store changes only through subsequent watch
events. -/
theorem c3_410_resumes_watching_without_rebootstrap
    (rest : List Session) (file : MapFile) :
    run_watch_loop (Session.mk [] .api410 :: rest) file
      = ((run_watch_loop rest file).1,
          .warn410 :: (run_watch_loop rest file).2) := by
  simp [run_watch_loop, watch_for_changes]

/-- C4: a non-empty list returned by `get_backups_for_volume` is sorted
by `created_at` descending, and is the stable descending sort of the
records in catalog enumeration order: records with equal `created_at`
keep the enumeration order, witnessed by the filter at every timestamp
being unchanged. -/
theorem c4_backups_sorted_desc_and_stable (s3 : S3Model) (bucket v : String)
    (l : List BackupRecord)
    (hres : get_backups_for_volume s3 bucket v = .ok l) (hne : l ≠ []) :
    l.Pairwise (fun a b => strLtB a.created_at b.created_at = false) ∧
    ∃ cps raw,
      s3.listObjects bucket (catalogPath v) = .ok cps ∧
      collectBackups s3 bucket (catalogPath v) cps = .recs raw ∧
      l = sortedByCreatedDesc raw ∧
      ∀ t, l.filter (fun b => b.created_at == t)
          = raw.filter (fun b => b.created_at == t) := by
  simp only [get_backups_for_volume] at hres
  split at hres
  · split at hres
    · injection hres with h
      exact absurd h.symm hne
    · simp at hres
  · rename_i cps heq0
    split at hres
    · rename_i raw heq1
      injection hres with h
      subst h
      refine ⟨sortedByCreatedDesc_pairwise raw, cps, raw, heq0, heq1, rfl, ?_⟩
      intro t
      exact sortedByCreatedDesc_filter t raw
    · injection hres with h
      exact absurd h.symm hne
    · simp at hres
    · simp at hres

/-- Witness for C4: in `s3good` the enumeration order is `bk-a`
(2024-01-02), `bk-b` (2024-01-05), `bk-c` (2024-01-02) and the
returned list is `bk-b`, `bk-a`, `bk-c`: descending, with the
equal-timestamp pair `bk-a`, `bk-c` in enumeration order. -/
theorem c4_witness :
    (get_backups_for_volume s3good "bkt" "abcd-ef" = .ok [recB, recA, recC] ∧
      ([recB, recA, recC] : List BackupRecord) ≠ []) ∧
    (([recB, recA, recC] : List BackupRecord).Pairwise
        (fun a b => strLtB a.created_at b.created_at = false) ∧
      ∃ cps raw,
        s3good.listObjects "bkt" (catalogPath "abcd-ef") = .ok cps ∧
        collectBackups s3good "bkt" (catalogPath "abcd-ef") cps = .recs raw ∧
        [recB, recA, recC] = sortedByCreatedDesc raw ∧
        ∀ t, ([recB, recA, recC] : List BackupRecord).filter
              (fun b => b.created_at == t)
            = raw.filter (fun b => b.created_at == t)) :=
  ⟨⟨by decide, by decide⟩,
    c4_backups_sorted_desc_and_stable s3good "bkt" "abcd-ef"
      [recB, recA, recC] (by decide) (by decide)⟩

/-- C5, evaluation at the failing input: the claim says malformed
metadata (invalid JSON or a missing required field) makes
`get_backups_for_volume` return an error for that volume.  Invalid
JSON indeed returns the error value `None`, but a `backup.cfg` that
parses as JSON and lacks the `Created` field raises an uncaught
`KeyError` instead of returning; the caller never receives a per-volume
error and the process aborts. -/
theorem c5_missing_field_raises_keyerror :
    get_backups_for_volume s3bad "bkt" "abcd-ef" = .raised .keyError ∧
    get_backups_for_volume s3badJson "bkt" "abcd-ef" = .errNone := by
  constructor <;> decide

/-- C6: for a volume whose catalog key path does not exist (no backups
stored), `get_backups_for_volume` returns the empty list and never an
error — both for the S3 behavior of returning a listing with no common
prefixes and for a `NoSuchKey` client error. -/
theorem c6_no_backups_empty_not_error (s3 : S3Model) (bucket v : String)
    (h : s3.listObjects bucket (catalogPath v) = .ok [] ∨
      s3.listObjects bucket (catalogPath v) = .error "NoSuchKey") :
    get_backups_for_volume s3 bucket v = .ok [] := by
  rcases h with h | h <;>
    simp [get_backups_for_volume, h, collectBackups, sortedByCreatedDesc]

/-- Witness for C6: the empty catalog yields the empty backup list. -/
theorem c6_witness :
    (s3empty.listObjects "bkt" (catalogPath "abcd-ef") = .ok [] ∨
      s3empty.listObjects "bkt" (catalogPath "abcd-ef") = .error "NoSuchKey") ∧
    get_backups_for_volume s3empty "bkt" "abcd-ef" = .ok [] :=
  ⟨Or.inl rfl, c6_no_backups_empty_not_error s3empty "bkt" "abcd-ef" (Or.inl rfl)⟩

/-- C7: for every cluster state, the bootstrap enumeration
`get_pvc_mapping` produces exactly one mapping entry per claim with a
bound (truthy) volume name — the entries are precisely the bound claims
in enumeration order, mapped to their `(namespace, pvcName, volumeName)`
triples — and claims with no bound volume contribute no entry. -/
theorem c7_bootstrap_one_entry_per_bound_claim (items : List PVCItem) :
    get_pvc_mapping (.ok items)
      = some ((items.filter fun pvc => boundVolume pvc.spec.volume_name).map
          entryOfPVC) :=
  get_pvc_mapping_ok items

/-- C8: after a successful synchronization pass (API list succeeded and
the file write succeeded), the mapping store holds a list in which no
two entries share the same (namespace, claimName) pair — given that the
cluster's listing itself contains at most one claim per (namespace,
name), which the Kubernetes API guarantees. -/
theorem c8_sync_pass_keys_unique (items : List PVCItem) (file : MapFile)
    (h : items.Pairwise fun p q =>
      ¬(p.metadata.namespace_ = q.metadata.namespace_ ∧
        p.metadata.name = q.metadata.name)) :
    ∃ m, update_mapping_file (.ok items) true file = (.content m, true) ∧
      m.Pairwise fun a b =>
        ¬(a.namespace_ = b.namespace_ ∧ a.pvcName = b.pvcName) := by
  refine ⟨(items.filter fun pvc => boundVolume pvc.spec.volume_name).map
    entryOfPVC, ?_, ?_⟩
  · simp [update_mapping_file, get_pvc_mapping_ok]
  · rw [List.pairwise_map]
    exact (h.filter _).imp fun hpq h' => hpq (by simpa [entryOfPVC] using h')

/-- Witness for C8: two claims with distinct names in one namespace,
one bound and one unbound, yield a store with unique keys. -/
theorem c8_witness :
    (demoItems.Pairwise fun p q =>
      ¬(p.metadata.namespace_ = q.metadata.namespace_ ∧
        p.metadata.name = q.metadata.name)) ∧
    ∃ m, update_mapping_file (.ok demoItems) true (.content []) =
        (.content m, true) ∧
      m.Pairwise fun a b =>
        ¬(a.namespace_ = b.namespace_ ∧ a.pvcName = b.pvcName) :=
  ⟨by decide, c8_sync_pass_keys_unique demoItems (.content []) (by decide)⟩

/-- C9: when the operator declines the default backup or provides no
valid selection (a non-`y` answer, or a `list` answer with a
non-numeric or out-of-range number), processing of the entry ends with
no mutation performed: the manifest file state is unchanged, no
undo-log copy is created, and nothing is applied to the cluster. -/
theorem c9_decline_leaves_no_mutation (s3 : S3Model) (bucket : String)
    (entry : MappingEntry) (inp : EntryInput)
    (latest : BackupRecord) (rest : List BackupRecord)
    (hres : get_backups_for_volume s3 bucket entry.volumeName
      = .ok (latest :: rest))
    (hts : ((latest :: rest).all fun b => validCreatedAt b.created_at) = true)
    (hdecl : chosen_backup inp.user latest (latest :: rest) = none) :
    process_entry s3 bucket entry inp = .ok (.declined, inp.fs, false) := by
  have h1 : validCreatedAt latest.created_at = true := by
    have := List.all_eq_true.mp hts latest (List.mem_cons_self latest rest)
    simpa using this
  simp [process_entry, hres, h1, hts, hdecl]

/-- Witness for C9: the operator answers `n` on the entry for volume
`abcd-ef`; the entry ends declined with its file state untouched and no
apply submitted. -/
theorem c9_witness :
    (get_backups_for_volume s3good "bkt" entryDemo.volumeName
        = .ok [recB, recA, recC] ∧
      (([recB, recA, recC] : List BackupRecord).all
        fun b => validCreatedAt b.created_at) = true ∧
      chosen_backup inpDecline.user recB [recB, recA, recC] = none) ∧
    process_entry s3good "bkt" entryDemo inpDecline
      = .ok (.declined, inpDecline.fs, false) :=
  ⟨⟨by decide, by decide, by decide⟩,
    c9_decline_leaves_no_mutation s3good "bkt" entryDemo inpDecline
      recB [recA, recC] (by decide) (by decide) (by decide)⟩

/-- C10: when the cluster enumeration fails with an API error during a
synchronization pass, `update_mapping_file` leaves the mapping store
file completely unchanged and attempts no write, so the previous
snapshot remains on disk. -/
theorem c10_api_error_leaves_store_unchanged (writeOk : Bool)
    (file : MapFile) :
    update_mapping_file (.error ()) writeOk file = (file, false) := by
  simp [update_mapping_file, get_pvc_mapping]
